import Mathlib

/-!
Verification of the auto-merge policy evaluator in
`src/lib/automerge/autoMerge.ts`. The file under `src/` holds two
provider variants of the same module, separated by a document marker:
variant 1 (lines 1-222) and variant 2 (lines 223-449). They are embedded
below as namespaces `V1` and `V2`. Pure functions of the source become
Lean functions; the network-calling `executeAutoMerge` becomes a pure
function that returns the handler result together with the trace of
provider calls it would issue, and `Except` captures the JavaScript
`TypeError` thrown by the unguarded `pr.labels.find` dereference.
-/

/- ### String primitives

The TypeScript code uses `String.prototype.indexOf`, `startsWith`,
`includes`, `split` and `toLowerCase`. They are embedded as executable
functions on the character list underlying a `String`. -/

/-- Boolean test that `p` is a prefix of the second list, mirroring the
character-by-character comparison `startsWith` performs. -/
def prefixOfChars : List Char → List Char → Bool
  | [], _ => true
  | _ :: _, [] => false
  | p :: ps, s :: ss => p == s && prefixOfChars ps ss

/-- Boolean test that `p` occurs as a contiguous run inside the second
list; `msg.indexOf(tag) >= 0` in JavaScript is exactly this test. -/
def infixOfChars (p : List Char) : List Char → Bool
  | [] => p.isEmpty
  | s :: ss => prefixOfChars p (s :: ss) || infixOfChars p ss

/-- Substring containment on strings: `msg.indexOf(tag) >= 0`. -/
def strContains (msg tag : String) : Bool :=
  infixOfChars tag.data msg.data

/-- Embeds `s.startsWith(p)`. -/
def strStartsWith (s p : String) : Bool :=
  prefixOfChars p.data s.data

/-- Splits a character list at every occurrence of `c`; the JavaScript
`"".split(c)` convention yields `[""]` on the empty string. -/
def splitOnChar (c : Char) : List Char → List (List Char)
  | [] => [[]]
  | x :: xs =>
    let r := splitOnChar c xs
    if x == c then [] :: r
    else
      match r with
      | [] => [[x]]
      | y :: ys => (x :: y) :: ys

/-- Embeds `name.split(":")`. -/
def strSplitColon (s : String) : List String :=
  (splitOnChar ':' s.data).map String.mk

/-- Embeds `s.toLowerCase()` (ASCII case folding, which covers every
label the module compares). -/
def strToLower (s : String) : String :=
  String.mk (s.data.map Char.toLower)

/- ### Data model

Shapes of the GraphQL `AutoMergeOnReview.PullRequest` snapshot consumed
by both variants. Nullable fields become `Option`. -/

/-- Build status enum from the generated typings; the code only ever
compares against `passed`. -/
inductive BuildStatus where
  | passed
  | broken
  | failed
  | started
  | canceled
  | pending
deriving DecidableEq, Repr

/-- One entry of `head.builds` (or `head.statuses`): only its status is
inspected. -/
structure Build where
  status : BuildStatus
deriving DecidableEq, Repr

/-- A label attached to the pull request. -/
structure Label where
  name : String
deriving DecidableEq, Repr

/-- A top-level or review-nested comment. -/
structure Comment where
  body : Option String
deriving DecidableEq, Repr

/-- A reviewer identity, printed as `@login` in the result comment. -/
structure Reviewer where
  login : String
deriving DecidableEq, Repr

/-- A review; `by_` embeds the source field `by`, a reserved word in
Lean. The nested `comments` field is part of the GraphQL shape but is
never read by the code. -/
structure Review where
  state : String
  comments : Option (List Comment)
  by_ : List Reviewer
deriving DecidableEq, Repr

/-- A commit; only its message is inspected. -/
structure Commit where
  message : Option String
deriving DecidableEq, Repr

/-- The head commit record holding build results; variant 1 reads
`builds` everywhere, variant 2 reads `builds` for gating but `statuses`
in the result comment. -/
structure Head where
  builds : Option (List Build)
  statuses : Option (List Build)
deriving DecidableEq, Repr

/-- Repository coordinates used for the provider calls. -/
structure Repo where
  owner : String
  name : String
deriving DecidableEq, Repr

/-- The pull-request snapshot. -/
structure PullRequest where
  number : Nat
  title : Option String
  body : Option String
  labels : Option (List Label)
  comments : Option (List Comment)
  reviews : Option (List Review)
  commits : Option (List Commit)
  head : Option Head
  repo : Repo
deriving DecidableEq, Repr

/-- Credentials are opaque to the decision logic; only the HTTP client
construction consumes them. -/
def Creds : Type := String

/-- The `HandlerResult` of the automation client; `Success` is the
record with code 0. -/
structure HandlerResult where
  code : Nat
deriving DecidableEq, Repr

/-- The `Success` constant returned on every non-throwing path. -/
def Success : HandlerResult := ⟨0⟩

/-- The provider response to `api.pullrequests.get`; its content is
irrelevant because both variants' `canBeMerged` ignore the argument. -/
structure BitbucketResponse where
  data : Unit
deriving DecidableEq, Repr

/-- One outbound provider call issued by `executeAutoMerge`: the
pull-request read, the merge, or the result comment. -/
inductive ProviderCall where
  | getPr (owner name : String) (number : Nat)
  | merge (owner name : String) (number : Nat) (strategy message : String)
  | comment (owner name : String) (number : Nat) (body : String)
deriving DecidableEq, Repr

/-- Recognizer for the merge call in a trace. -/
def ProviderCall.isMergeCall : ProviderCall → Bool
  | .merge .. => true
  | _ => false

/-- Recognizer for the comment call in a trace. -/
def ProviderCall.isCommentCall : ProviderCall → Bool
  | .comment .. => true
  | _ => false

/-- Result of one `executeAutoMerge` run: either a thrown `TypeError`
or the handler result with the trace of provider calls. -/
def ExecResult : Type := Except String (HandlerResult × List ProviderCall)

/-- The `TypeError` raised when `pr.labels.find` dereferences an absent
labels field. -/
def labelsUndefinedError : String := "TypeError: pr.labels is undefined"

/- ### Helpers shared verbatim by both variants -/

/-- Embeds `isTagged(msg, tag)`, i.e. `msg && msg.indexOf(tag) >= 0`:
an absent or empty message is falsy and never matches. Identical text
in both variants. -/
def isTagged (msg : Option String) (tag : String) : Bool :=
  match msg with
  | none => false
  | some m => !m.data.isEmpty && strContains m tag

/-- Embeds `pr.labels && pr.labels.some(l => l.name === label)`, the
label check step 0 of variant 2's `isPrTagged`. -/
def checkLabels (pr : PullRequest) (label : String) : Bool :=
  match pr.labels with
  | none => false
  | some ls => ls.any (fun l => l.name == label)

/-- Embeds `pr.comments && pr.comments.some(c => isTagged(c.body, tag))`. -/
def checkComments (pr : PullRequest) (tag : String) : Bool :=
  match pr.comments with
  | none => false
  | some cs => cs.any (fun c => isTagged c.body tag)

/-- Embeds `pr.commits && pr.commits.some(c => isTagged(c.message, tag))`. -/
def checkCommits (pr : PullRequest) (tag : String) : Bool :=
  match pr.commits with
  | none => false
  | some cs => cs.any (fun c => isTagged c.message tag)

/-- The tail of `mergeMethod` after `pr.labels.find`: when a strategy
label was found and its name contains a colon, the lower-cased text
after the first colon is the requested method if it belongs to the
given method list; every other case yields the literal `merge_commit`. -/
def methodFromLabel (methods : List String) : Option Label → Except String String
  | some methodLabel =>
    if strContains methodLabel.name ":" then
      if methods.contains (strToLower ((strSplitColon methodLabel.name).getD 1 "")) then
        Except.ok (strToLower ((strSplitColon methodLabel.name).getD 1 ""))
      else Except.ok "merge_commit"
    else Except.ok "merge_commit"
  | none => Except.ok "merge_commit"

/-- The early-return block 1 of `executeAutoMerge`: with the approval
tag present, return `Success` when reviews are absent or empty, or when
some review is not approved. -/
def reviewsBlockMerge : Option (List Review) → Bool
  | none => true
  | some rs => rs.isEmpty || rs.any (fun r => r.state != "approved")

/-- The block 2 guard of `executeAutoMerge`: continue only when
`pr.head` and `pr.head.builds` are present, the build list is nonempty,
and no build has a status other than `passed`. -/
def buildReady : Option Head → Bool
  | none => false
  | some h =>
    match h.builds with
    | none => false
    | some bs => !bs.isEmpty && !(bs.any (fun b => b.status != BuildStatus.passed))

/-- The merge message template of the `pullrequests.merge` body. -/
def mergeMessage (pr : PullRequest) : String :=
  "Auto merge pull request #" ++ toString pr.number ++ " from "
    ++ pr.repo.owner ++ "/" ++ pr.repo.name

/-- Embeds `reviewComment(pr)`; identical text in both variants. -/
def reviewComment (pr : PullRequest) : String :=
  match pr.reviews with
  | some rs =>
    if 0 < rs.length then
      toString rs.length ++ " approved "
        ++ (if 1 < rs.length then "reviews" else "review") ++ " by "
        ++ String.intercalate ", "
          (rs.map (fun r => String.intercalate ", " (r.by_.map (fun b => "@" ++ b.login))))
    else "No reviews"
  | none => "No reviews"

/-- The `atomist:generated` traceability marker. -/
def AtomistGeneratedLabel : String := "atomist:generated"

/- ### Variant 1 (source lines 1-222) -/

namespace V1

/-- Marker tag for merge-on-approval, a string literal in variant 1. -/
def AutoMergeTag : String := "[auto-merge:on-approve]"

/-- Marker tag for merge-on-check-success. -/
def AutoMergeCheckSuccessTag : String := "[auto-merge:on-check-success]"

/-- Prefix of the strategy-selection labels. -/
def AutoMergeMethodLabel : String := "auto-merge-method:"

/-- Recognized strategy suffixes of variant 1. -/
def AutoMergeMethods : List String := ["merge-commit", "fast-forward", "squash"]

/-- Embeds variant 1's `canBeMerged`: a stub that ignores the fetched
pull request and returns false unconditionally. -/
def canBeMerged (_gpr : BitbucketResponse) : Bool := false

/-- Embeds variant 1's `isPrTagged(pr, tag)`: title, body, comments and
commit messages are checked for the tag; variant 1 has no label step. -/
def isPrTagged (pr : PullRequest) (tag : String) : Bool :=
  isTagged pr.title tag || isTagged pr.body tag
    || checkComments pr tag || checkCommits pr tag

/-- Embeds variant 1's `isPrAutoMergeEnabled`. -/
def isPrAutoMergeEnabled (pr : PullRequest) : Bool :=
  isPrTagged pr AutoMergeTag || isPrTagged pr AutoMergeCheckSuccessTag

/-- Embeds variant 1's `mergeMethod`. `pr.labels.find` is dereferenced
without a guard, so an absent labels field raises a `TypeError`; with a
strategy label present the suffix after the colon is lower-cased and
kept when recognized, and everything else falls back to the literal
`merge_commit`. -/
def mergeMethod (pr : PullRequest) : Except String String :=
  match pr.labels with
  | none => Except.error labelsUndefinedError
  | some labels =>
    methodFromLabel AutoMergeMethods
      (labels.find? (fun l => strStartsWith l.name AutoMergeMethodLabel))

/-- Embeds variant 1's `statusComment`, which reads `head.builds`. -/
def statusComment (pr : PullRequest) : String :=
  match pr.head with
  | some h =>
    match h.builds with
    | some bs =>
      if 0 < bs.length then
        toString bs.length ++ " successful "
          ++ (if 1 < bs.length then "checks" else "check")
      else "No checks"
    | none => "No checks"
  | none => "No checks"

/-- The comment body posted after a merge in variant 1. -/
def commentBody (pr : PullRequest) : String :=
  "Pull request auto merged by Atomist.\n\n* " ++ reviewComment pr
    ++ "\n* " ++ statusComment pr
    ++ "\n\n[" ++ AtomistGeneratedLabel ++ "] "
    ++ (if isPrTagged pr AutoMergeCheckSuccessTag then AutoMergeCheckSuccessTag
        else AutoMergeTag)

/-- The provider phase of variant 1's `executeAutoMerge`: fetch the
pull request, then merge and comment only when `canBeMerged` allows it;
otherwise log and return `Success` with only the read call issued. -/
def mergePhase (pr : PullRequest) (_creds : Creds) : ExecResult :=
  let getCall := ProviderCall.getPr pr.repo.owner pr.repo.name pr.number
  let gpr : BitbucketResponse := ⟨()⟩
  if canBeMerged gpr then
    match mergeMethod pr with
    | Except.error e => Except.error e
    | Except.ok strategy =>
      Except.ok (Success,
        [getCall,
         ProviderCall.merge pr.repo.owner pr.repo.name pr.number strategy (mergeMessage pr),
         ProviderCall.comment pr.repo.owner pr.repo.name pr.number (commentBody pr)])
  else
    Except.ok (Success, [getCall])

/-- Embeds variant 1's `executeAutoMerge` as a pure function from the
snapshot and credentials to the handler result with its provider-call
trace. The early returns of the source become the successive guards. -/
def executeAutoMerge (pr? : Option PullRequest) (creds : Creds) : ExecResult :=
  match pr? with
  | none => Except.ok (Success, [])
  | some pr =>
    if isPrTagged pr AutoMergeTag && reviewsBlockMerge pr.reviews then
      Except.ok (Success, [])
    else if buildReady pr.head = false then
      Except.ok (Success, [])
    else if isPrAutoMergeEnabled pr then
      mergePhase pr creds
    else
      Except.ok (Success, [])

end V1

/- ### Variant 2 (source lines 223-449) -/

namespace V2

/-- Label form of the merge-on-approval marker. -/
def AutoMergeLabel : String := "auto-merge:on-approve"

/-- Label form of the merge-on-check-success marker. -/
def AutoMergeCheckSuccessLabel : String := "auto-merge:on-check-success"

/-- Tag form of the approval marker, built from the label in variant 2. -/
def AutoMergeTag : String := "[" ++ AutoMergeLabel ++ "]"

/-- Tag form of the check-success marker. -/
def AutoMergeCheckSuccessTag : String := "[" ++ AutoMergeCheckSuccessLabel ++ "]"

/-- Prefix of the strategy-selection labels. -/
def AutoMergeMethodLabel : String := "auto-merge-method:"

/-- Recognized strategy suffixes of variant 2, a different set from
variant 1. -/
def AutoMergeMethods : List String := ["merge", "rebase", "squash"]

/-- Embeds variant 2's `canBeMerged`: the same constant-false stub. -/
def canBeMerged (_gpr : BitbucketResponse) : Bool := false

/-- Embeds variant 2's `isPrTagged(pr, label, tag)`: step 0 checks the
labels for an exact name match, then title, body, comments and commit
messages are checked for the tag substring. -/
def isPrTagged (pr : PullRequest) (label tag : String) : Bool :=
  checkLabels pr label
    || isTagged pr.title tag || isTagged pr.body tag
    || checkComments pr tag || checkCommits pr tag

/-- Embeds variant 2's `isPrAutoMergeEnabled`. -/
def isPrAutoMergeEnabled (pr : PullRequest) : Bool :=
  isPrTagged pr AutoMergeLabel AutoMergeTag
    || isPrTagged pr AutoMergeCheckSuccessLabel AutoMergeCheckSuccessTag

/-- Embeds variant 2's `mergeMethod`; same text as variant 1 except for
the recognized method list. -/
def mergeMethod (pr : PullRequest) : Except String String :=
  match pr.labels with
  | none => Except.error labelsUndefinedError
  | some labels =>
    methodFromLabel AutoMergeMethods
      (labels.find? (fun l => strStartsWith l.name AutoMergeMethodLabel))

/-- Embeds variant 2's `statusComment`, which reads `head.statuses`
rather than the `head.builds` list that gates the merge. -/
def statusComment (pr : PullRequest) : String :=
  match pr.head with
  | some h =>
    match h.statuses with
    | some bs =>
      if 0 < bs.length then
        toString bs.length ++ " successful "
          ++ (if 1 < bs.length then "checks" else "check")
      else "No checks"
    | none => "No checks"
  | none => "No checks"

/-- The comment body posted after a merge in variant 2; the trailing
marker is written as the bracketed label. -/
def commentBody (pr : PullRequest) : String :=
  "Pull request auto merged by Atomist.\n\n* " ++ reviewComment pr
    ++ "\n* " ++ statusComment pr
    ++ "\n\n[" ++ AtomistGeneratedLabel ++ "] ["
    ++ (if isPrTagged pr AutoMergeCheckSuccessLabel AutoMergeCheckSuccessTag
        then AutoMergeCheckSuccessLabel else AutoMergeLabel) ++ "]"

/-- The provider phase of variant 2's `executeAutoMerge`. -/
def mergePhase (pr : PullRequest) (_creds : Creds) : ExecResult :=
  let getCall := ProviderCall.getPr pr.repo.owner pr.repo.name pr.number
  let gpr : BitbucketResponse := ⟨()⟩
  if canBeMerged gpr then
    match mergeMethod pr with
    | Except.error e => Except.error e
    | Except.ok strategy =>
      Except.ok (Success,
        [getCall,
         ProviderCall.merge pr.repo.owner pr.repo.name pr.number strategy (mergeMessage pr),
         ProviderCall.comment pr.repo.owner pr.repo.name pr.number (commentBody pr)])
  else
    Except.ok (Success, [getCall])

/-- Embeds variant 2's `executeAutoMerge`. -/
def executeAutoMerge (pr? : Option PullRequest) (creds : Creds) : ExecResult :=
  match pr? with
  | none => Except.ok (Success, [])
  | some pr =>
    if isPrTagged pr AutoMergeLabel AutoMergeTag && reviewsBlockMerge pr.reviews then
      Except.ok (Success, [])
    else if buildReady pr.head = false then
      Except.ok (Success, [])
    else if isPrAutoMergeEnabled pr then
      mergePhase pr creds
    else
      Except.ok (Success, [])

end V2

/- ### Spec-side predicate for the tagging invariant

The spec states the tagging invariant over title, body, top-level
comment bodies, review-nested comment bodies, commit messages and
labels. It is written here from the spec's words, to be compared with
the code's `isPrTagged`. -/

/-- A marker convention: its label form and its bracketed tag form. -/
structure Marker where
  label : String
  tag : String
deriving DecidableEq, Repr

/-- Substring occurrence in a possibly absent text field, the spec's
"found verbatim as a substring", with absent fields non-matching. -/
def optContains (msg : Option String) (tag : String) : Bool :=
  match msg with
  | none => false
  | some m => strContains m tag

/-- Spec-side tagging predicate, following the spec invariant word for
word: the marker tag occurs as a substring of the title, the body, some
top-level comment body, some review-nested comment body, or some commit
message, or some label name equals the marker's label form. -/
def specTagged (pr : PullRequest) (marker : Marker) : Bool :=
  optContains pr.title marker.tag || optContains pr.body marker.tag
    || (pr.comments.getD []).any (fun c => optContains c.body marker.tag)
    || (pr.reviews.getD []).any
        (fun r => (r.comments.getD []).any (fun c => optContains c.body marker.tag))
    || (pr.commits.getD []).any (fun c => optContains c.message marker.tag)
    || (pr.labels.getD []).any (fun l => l.name == marker.label)

/-- The spec-side tagging predicate without the review-nested comment
surface, which the code never inspects. -/
def specTaggedNoReviewComments (pr : PullRequest) (marker : Marker) : Bool :=
  optContains pr.title marker.tag || optContains pr.body marker.tag
    || (pr.comments.getD []).any (fun c => optContains c.body marker.tag)
    || (pr.commits.getD []).any (fun c => optContains c.message marker.tag)
    || (pr.labels.getD []).any (fun l => l.name == marker.label)

/-- The approval marker convention. -/
def approveMarker : Marker := ⟨V2.AutoMergeLabel, V2.AutoMergeTag⟩

/-- Boolean observation that a run ended in `Success` and issued neither
a merge call nor a comment call. -/
def noMergeNoComment : ExecResult → Bool
  | Except.ok (r, tr) => r == Success && tr.all (fun c => !c.isMergeCall && !c.isCommentCall)
  | Except.error _ => false

/- ### Concrete snapshots used as inputs of witnesses and counterexamples -/

/-- Scenario A of the spec: label `auto-merge:on-approve`, one approved
review, one passed build (mirrored into `statuses` as variant 2's
adapter would). -/
def scenarioA : PullRequest :=
  { number := 1, title := none, body := none,
    labels := some [⟨"auto-merge:on-approve"⟩],
    comments := none,
    reviews := some [{ state := "approved", comments := none, by_ := [⟨"alice"⟩] }],
    commits := none,
    head := some { builds := some [⟨BuildStatus.passed⟩],
                   statuses := some [⟨BuildStatus.passed⟩] },
    repo := ⟨"owner", "repo"⟩ }

/-- A snapshot whose only occurrence of the approval marker sits in a
review-nested comment body. -/
def reviewCommentOnlyPr : PullRequest :=
  { number := 7, title := none, body := none, labels := none, comments := none,
    reviews := some [{ state := "approved",
                       comments := some [⟨some "please [auto-merge:on-approve]"⟩],
                       by_ := [] }],
    commits := none, head := none, repo := ⟨"o", "r"⟩ }

/-- A snapshot whose only marker evidence is the exact label. -/
def labelOnlyPr : PullRequest :=
  { number := 3, title := none, body := none,
    labels := some [⟨"auto-merge:on-approve"⟩], comments := none, reviews := none,
    commits := none, head := none, repo := ⟨"o", "r"⟩ }

/-- A snapshot carrying the strategy label `auto-merge-method:merge`,
recognized by variant 2 only. -/
def mergeLabelPr : PullRequest :=
  { number := 4, title := none, body := none,
    labels := some [⟨"auto-merge-method:merge"⟩], comments := none, reviews := none,
    commits := none, head := none, repo := ⟨"o", "r"⟩ }

/-- A snapshot with every optional field absent. -/
def noLabelsPr : PullRequest :=
  { number := 0, title := none, body := none, labels := none, comments := none,
    reviews := none, commits := none, head := none, repo := ⟨"o", "r"⟩ }

/-- A snapshot with an empty labels list and nothing else. -/
def emptyLabelsPr : PullRequest :=
  { number := 5, title := none, body := none, labels := some [], comments := none,
    reviews := none, commits := none, head := none, repo := ⟨"o", "r"⟩ }

/-- A snapshot whose title carries only the upper-cased marker text. -/
def upperTitlePr : PullRequest :=
  { number := 2, title := some "[AUTO-MERGE:ON-APPROVE]", body := none, labels := none,
    comments := none, reviews := none, commits := none, head := none,
    repo := ⟨"o", "r"⟩ }

/-- A snapshot tagged through its title, with one non-approved review. -/
def rejectedReviewPr : PullRequest :=
  { number := 6, title := some "x [auto-merge:on-approve]", body := none, labels := none,
    comments := none,
    reviews := some [{ state := "changes_requested", comments := none, by_ := [] }],
    commits := none,
    head := some { builds := some [⟨BuildStatus.passed⟩], statuses := none },
    repo := ⟨"o", "r"⟩ }

/-- A snapshot tagged through its title whose only build failed. -/
def failedBuildPr : PullRequest :=
  { number := 8, title := some "x [auto-merge:on-approve]", body := none, labels := none,
    comments := none,
    reviews := some [{ state := "approved", comments := none, by_ := [] }],
    commits := none,
    head := some { builds := some [⟨BuildStatus.failed⟩], statuses := none },
    repo := ⟨"o", "r"⟩ }

/-- A snapshot carrying the strategy label `auto-merge-method:squash`. -/
def squashLabelPr : PullRequest :=
  { number := 9, title := none, body := none,
    labels := some [⟨"auto-merge-method:squash"⟩], comments := none, reviews := none,
    commits := none, head := none, repo := ⟨"o", "r"⟩ }

/-- A snapshot whose only strategy label has an unrecognized suffix. -/
def bogusLabelPr : PullRequest :=
  { number := 10, title := none, body := none,
    labels := some [⟨"auto-merge-method:rebase-bogus"⟩], comments := none,
    reviews := none, commits := none, head := none, repo := ⟨"o", "r"⟩ }

/- ### Helper lemmas -/

/-- With a nonempty tag, the falsy-string guard of `isTagged` is
redundant and `isTagged` is plain substring occurrence. -/
theorem isTagged_eq_optContains (msg : Option String) (tag : String)
    (h : tag.data ≠ []) : isTagged msg tag = optContains msg tag := by
  cases msg with
  | none => rfl
  | some m =>
    cases hm : m.data with
    | nil =>
      cases ht : tag.data with
      | nil => exact absurd ht h
      | cons a as =>
        simp [isTagged, optContains, strContains, hm, ht, infixOfChars]
    | cons b bs =>
      simp [isTagged, optContains, strContains, hm]

/-- The comment surface of `isPrTagged` agrees with the spec-side
formulation for nonempty tags. -/
theorem checkComments_eq (pr : PullRequest) (tag : String) (h : tag.data ≠ []) :
    checkComments pr tag = (pr.comments.getD []).any (fun c => optContains c.body tag) := by
  cases hc : pr.comments with
  | none => simp [checkComments, hc]
  | some cs =>
    simp only [checkComments, hc, Option.getD_some]
    exact congrArg cs.any (funext fun c => isTagged_eq_optContains c.body tag h)

/-- The commit surface of `isPrTagged` agrees with the spec-side
formulation for nonempty tags. -/
theorem checkCommits_eq (pr : PullRequest) (tag : String) (h : tag.data ≠ []) :
    checkCommits pr tag = (pr.commits.getD []).any (fun c => optContains c.message tag) := by
  cases hc : pr.commits with
  | none => simp [checkCommits, hc]
  | some cs =>
    simp only [checkCommits, hc, Option.getD_some]
    exact congrArg cs.any (funext fun c => isTagged_eq_optContains c.message tag h)

/-- The label surface of `isPrTagged` in its spec-side formulation. -/
theorem checkLabels_eq (pr : PullRequest) (label : String) :
    checkLabels pr label = (pr.labels.getD []).any (fun l => l.name == label) := by
  cases hl : pr.labels with
  | none => simp [checkLabels, hl]
  | some ls => simp [checkLabels, hl]

/-- Variant 1's provider phase stops after the read call because its
`canBeMerged` stub refuses every pull request. -/
theorem mergePhase_eq_get₁ (pr : PullRequest) (creds : Creds) :
    V1.mergePhase pr creds
      = Except.ok (Success, [ProviderCall.getPr pr.repo.owner pr.repo.name pr.number]) := rfl

/-- Variant 2's provider phase stops after the read call. -/
theorem mergePhase_eq_get₂ (pr : PullRequest) (creds : Creds) :
    V2.mergePhase pr creds
      = Except.ok (Success, [ProviderCall.getPr pr.repo.owner pr.repo.name pr.number]) := rfl

/- ### Claim theorems -/

/-- C8: when the pull-request argument is absent, both variants of
`executeAutoMerge` return `Success` with an empty provider-call trace
and without raising an error. -/
theorem c8_absent_pr_is_noop_success (creds : Creds) :
    V1.executeAutoMerge none creds = Except.ok (Success, [])
    ∧ V2.executeAutoMerge none creds = Except.ok (Success, []) := ⟨rfl, rfl⟩

/-- C8 witness at a concrete credential value. -/
theorem c8_witness :
    V1.executeAutoMerge none "token" = Except.ok (Success, [])
    ∧ V2.executeAutoMerge none "token" = Except.ok (Success, []) :=
  c8_absent_pr_is_noop_success "token"

/-- C1: evaluated at the spec's scenario A (label `auto-merge:on-approve`,
one approved review, one passed build), variant 2's `executeAutoMerge`
issues only the pull-request read and returns `Success` without a merge
call and without a comment call, because the `canBeMerged` stub refuses
every pull request; the claim's merge with strategy merge-commit and the
result comment never happen. -/
theorem c1_scenarioA_merge_never_issued :
    V2.executeAutoMerge (some scenarioA) "token"
      = Except.ok (Success, [ProviderCall.getPr "owner" "repo" 1])
    ∧ V2.canBeMerged ⟨()⟩ = false
    ∧ V2.mergeMethod scenarioA = Except.ok "merge_commit" := ⟨rfl, rfl, rfl⟩

/-- C2: both `canBeMerged` stubs return false on every response, and on
every snapshot and credential value both variants of `executeAutoMerge`
return `Success` having issued neither a merge call nor a comment call. -/
theorem c2_canBeMerged_always_false :
    (∀ g : BitbucketResponse, V1.canBeMerged g = false ∧ V2.canBeMerged g = false)
    ∧ ∀ (pr? : Option PullRequest) (creds : Creds),
        noMergeNoComment (V1.executeAutoMerge pr? creds) = true
        ∧ noMergeNoComment (V2.executeAutoMerge pr? creds) = true := by
  refine ⟨fun g => ⟨rfl, rfl⟩, fun pr? creds => ⟨?_, ?_⟩⟩
  · cases pr? with
    | none => rfl
    | some pr =>
      unfold V1.executeAutoMerge
      repeat first | rfl | split
  · cases pr? with
    | none => rfl
    | some pr =>
      unfold V2.executeAutoMerge
      repeat first | rfl | split

/-- C3 counterexample: a pull request whose only occurrence of the
approval marker sits in a review-nested comment body satisfies the
spec-side tagging predicate but is not tagged according to the code,
which never inspects review-nested comments. -/
theorem c3_counterexample_review_comment :
    specTagged reviewCommentOnlyPr approveMarker = true
    ∧ V2.isPrTagged reviewCommentOnlyPr approveMarker.label approveMarker.tag = false :=
  ⟨rfl, rfl⟩

/-- C3 (amended): for every snapshot and every marker with a nonempty
tag, `isPrTagged` returns true iff the tag occurs as a substring of the
title, the body, some top-level comment body, or some commit message,
or some label name equals the marker's label form; review-nested
comment bodies are not inspected. -/
theorem c3_isPrTagged_matches_spec (pr : PullRequest) (marker : Marker)
    (h : marker.tag ≠ "") :
    V2.isPrTagged pr marker.label marker.tag = specTaggedNoReviewComments pr marker := by
  have hd : marker.tag.data ≠ [] := fun hnil => h (String.ext hnil)
  unfold V2.isPrTagged specTaggedNoReviewComments
  rw [isTagged_eq_optContains _ _ hd, isTagged_eq_optContains _ _ hd,
      checkComments_eq _ _ hd, checkCommits_eq _ _ hd, checkLabels_eq]
  generalize (pr.labels.getD []).any (fun l => l.name == marker.label) = a
  generalize optContains pr.title marker.tag = b
  generalize optContains pr.body marker.tag = c
  generalize (pr.comments.getD []).any (fun x => optContains x.body marker.tag) = d
  generalize (pr.commits.getD []).any (fun x => optContains x.message marker.tag) = e
  revert a b c d e
  decide

/-- C3 witness: the amended equivalence applied to the review-comment
snapshot and the approval marker. -/
theorem c3_witness :
    approveMarker.tag ≠ ""
    ∧ V2.isPrTagged reviewCommentOnlyPr approveMarker.label approveMarker.tag
        = specTaggedNoReviewComments reviewCommentOnlyPr approveMarker :=
  ⟨by decide, c3_isPrTagged_matches_spec reviewCommentOnlyPr approveMarker (by decide)⟩

/-- C7: tag matching is an exact, case-sensitive substring test: a
snapshot whose title contains the upper-cased marker text but not the
marker itself, and whose other surfaces and labels carry no marker, is
not tagged. -/
theorem c7_case_sensitive (pr : PullRequest) (t : String)
    (ht : pr.title = some t)
    (hup : strContains t "[AUTO-MERGE:ON-APPROVE]" = true)
    (hlo : strContains t V2.AutoMergeTag = false)
    (hbody : isTagged pr.body V2.AutoMergeTag = false)
    (hlab : checkLabels pr V2.AutoMergeLabel = false)
    (hcom : checkComments pr V2.AutoMergeTag = false)
    (hcmt : checkCommits pr V2.AutoMergeTag = false) :
    V2.isPrTagged pr V2.AutoMergeLabel V2.AutoMergeTag = false := by
  unfold V2.isPrTagged
  rw [hlab, hbody, hcom, hcmt]
  simp [isTagged, ht, hlo]

/-- C7 witness: the upper-cased title snapshot is not tagged. -/
theorem c7_witness :
    upperTitlePr.title = some "[AUTO-MERGE:ON-APPROVE]"
    ∧ strContains "[AUTO-MERGE:ON-APPROVE]" "[AUTO-MERGE:ON-APPROVE]" = true
    ∧ strContains "[AUTO-MERGE:ON-APPROVE]" V2.AutoMergeTag = false
    ∧ V2.isPrTagged upperTitlePr V2.AutoMergeLabel V2.AutoMergeTag = false :=
  ⟨rfl, by decide, by decide,
   c7_case_sensitive upperTitlePr "[AUTO-MERGE:ON-APPROVE]" rfl (by decide) (by decide)
     rfl rfl rfl rfl⟩

/-- C4: on a pull request tagged with the approval marker, both
variants of `executeAutoMerge` return `Success` with no provider call
whenever the reviews are absent or empty, or some review has a state
other than approved. -/
theorem c4_unapproved_reviews_noop (pr : PullRequest) (creds : Creds)
    (hrev : pr.reviews = none ∨ pr.reviews = some []
      ∨ ∃ rs, pr.reviews = some rs ∧ ∃ r ∈ rs, r.state ≠ "approved") :
    (V1.isPrTagged pr V1.AutoMergeTag = true →
      V1.executeAutoMerge (some pr) creds = Except.ok (Success, []))
    ∧ (V2.isPrTagged pr V2.AutoMergeLabel V2.AutoMergeTag = true →
      V2.executeAutoMerge (some pr) creds = Except.ok (Success, [])) := by
  have hblock : reviewsBlockMerge pr.reviews = true := by
    rcases hrev with h | h | ⟨rs, hrs, r, hr, hstate⟩
    · rw [h]; rfl
    · rw [h]; rfl
    · rw [hrs]
      simp only [reviewsBlockMerge, Bool.or_eq_true, List.any_eq_true]
      exact Or.inr ⟨r, hr, by simpa [bne_iff_ne] using hstate⟩
  constructor
  · intro htag
    simp only [V1.executeAutoMerge]
    rw [htag, hblock]
    rfl
  · intro htag
    simp only [V2.executeAutoMerge]
    rw [htag, hblock]
    rfl

/-- C4 witness: a snapshot tagged through its title with one
changes-requested review is a no-op in both variants. -/
theorem c4_witness :
    (rejectedReviewPr.reviews
      = some [{ state := "changes_requested", comments := none, by_ := [] }])
    ∧ V1.executeAutoMerge (some rejectedReviewPr) "token" = Except.ok (Success, [])
    ∧ V2.executeAutoMerge (some rejectedReviewPr) "token" = Except.ok (Success, []) := by
  have h := c4_unapproved_reviews_noop rejectedReviewPr "token"
    (Or.inr (Or.inr ⟨[{ state := "changes_requested", comments := none, by_ := [] }],
      rfl, { state := "changes_requested", comments := none, by_ := [] },
      List.mem_singleton.mpr rfl, by decide⟩))
  exact ⟨rfl, h.1 (by decide), h.2 (by decide)⟩

/-- C5: both variants of `executeAutoMerge` return `Success` with no
provider call whenever `head` or `head.builds` is absent, the build
list is empty, or some build has a status other than passed — tags
notwithstanding. -/
theorem c5_builds_gate_noop (pr : PullRequest) (creds : Creds)
    (hb : pr.head = none
      ∨ (∃ h, pr.head = some h ∧ (h.builds = none ∨ h.builds = some []))
      ∨ (∃ h bs, pr.head = some h ∧ h.builds = some bs
          ∧ ∃ b ∈ bs, b.status ≠ BuildStatus.passed)) :
    V1.executeAutoMerge (some pr) creds = Except.ok (Success, [])
    ∧ V2.executeAutoMerge (some pr) creds = Except.ok (Success, []) := by
  have hbr : buildReady pr.head = false := by
    rcases hb with h | ⟨hd, hhd, h | h⟩ | ⟨hd, bs, hhd, hbs, b, hbmem, hst⟩
    · rw [h]; rfl
    · rw [hhd]; simp [buildReady, h]
    · rw [hhd]; simp [buildReady, h]
    · rw [hhd]
      have hany : bs.any (fun b => b.status != BuildStatus.passed) = true :=
        List.any_eq_true.mpr ⟨b, hbmem, by simpa [bne_iff_ne] using hst⟩
      simp [buildReady, hbs, hany]
  constructor
  · simp only [V1.executeAutoMerge]
    cases h1 : (V1.isPrTagged pr V1.AutoMergeTag && reviewsBlockMerge pr.reviews) <;>
      simp [h1, hbr]
  · simp only [V2.executeAutoMerge]
    cases h1 : (V2.isPrTagged pr V2.AutoMergeLabel V2.AutoMergeTag
        && reviewsBlockMerge pr.reviews) <;>
      simp [h1, hbr]

/-- C5 witness: a snapshot tagged through its title, with an approved
review but a failed build, is a no-op in both variants. -/
theorem c5_witness :
    failedBuildPr.head = some { builds := some [⟨BuildStatus.failed⟩], statuses := none }
    ∧ V1.executeAutoMerge (some failedBuildPr) "token" = Except.ok (Success, [])
    ∧ V2.executeAutoMerge (some failedBuildPr) "token" = Except.ok (Success, []) := by
  have h := c5_builds_gate_noop failedBuildPr "token"
    (Or.inr (Or.inr ⟨{ builds := some [⟨BuildStatus.failed⟩], statuses := none },
      [⟨BuildStatus.failed⟩], rfl, rfl, ⟨BuildStatus.failed⟩,
      List.mem_singleton.mpr rfl, by decide⟩))
  exact ⟨rfl, h.1, h.2⟩

/-- C6: the strategy selector returns `squash` when the first strategy
label is `auto-merge-method:squash`, and the default merge-commit
strategy (the provider literal `merge_commit`) when no label starts
with `auto-merge-method:` or when the only such label has an
unrecognized suffix such as `auto-merge-method:rebase-bogus` — in both
variants. -/
theorem c6_mergeMethod_strategy (pr : PullRequest) (ls : List Label)
    (hl : pr.labels = some ls) :
    (ls.find? (fun l => strStartsWith l.name V1.AutoMergeMethodLabel)
        = some ⟨"auto-merge-method:squash"⟩ →
      V1.mergeMethod pr = Except.ok "squash" ∧ V2.mergeMethod pr = Except.ok "squash")
    ∧ (ls.find? (fun l => strStartsWith l.name V1.AutoMergeMethodLabel) = none →
      V1.mergeMethod pr = Except.ok "merge_commit"
        ∧ V2.mergeMethod pr = Except.ok "merge_commit")
    ∧ (ls.find? (fun l => strStartsWith l.name V1.AutoMergeMethodLabel)
        = some ⟨"auto-merge-method:rebase-bogus"⟩ →
      V1.mergeMethod pr = Except.ok "merge_commit"
        ∧ V2.mergeMethod pr = Except.ok "merge_commit") := by
  refine ⟨fun hf => ⟨?_, ?_⟩, fun hf => ⟨?_, ?_⟩, fun hf => ⟨?_, ?_⟩⟩
  · simp only [V1.mergeMethod, hl]
    rw [hf]
    rfl
  · simp only [V2.mergeMethod, hl]
    rw [show (ls.find? fun l => strStartsWith l.name V2.AutoMergeMethodLabel)
        = some ⟨"auto-merge-method:squash"⟩ from hf]
    rfl
  · simp only [V1.mergeMethod, hl]
    rw [hf]
    rfl
  · simp only [V2.mergeMethod, hl]
    rw [show (ls.find? fun l => strStartsWith l.name V2.AutoMergeMethodLabel)
        = none from hf]
    rfl
  · simp only [V1.mergeMethod, hl]
    rw [hf]
    rfl
  · simp only [V2.mergeMethod, hl]
    rw [show (ls.find? fun l => strStartsWith l.name V2.AutoMergeMethodLabel)
        = some ⟨"auto-merge-method:rebase-bogus"⟩ from hf]
    rfl

/-- C6 witness: the three strategy cases at concrete snapshots. -/
theorem c6_witness :
    (V1.mergeMethod squashLabelPr = Except.ok "squash"
      ∧ V2.mergeMethod squashLabelPr = Except.ok "squash")
    ∧ (V1.mergeMethod emptyLabelsPr = Except.ok "merge_commit"
      ∧ V2.mergeMethod emptyLabelsPr = Except.ok "merge_commit")
    ∧ (V1.mergeMethod bogusLabelPr = Except.ok "merge_commit"
      ∧ V2.mergeMethod bogusLabelPr = Except.ok "merge_commit") :=
  ⟨(c6_mergeMethod_strategy squashLabelPr _ rfl).1 (by decide),
   (c6_mergeMethod_strategy emptyLabelsPr _ rfl).2.1 rfl,
   (c6_mergeMethod_strategy bogusLabelPr _ rfl).2.2 (by decide)⟩

/-- C9 counterexample: the variants' decision functions are not
extensionally equal. A label-only snapshot is tagged by variant 2 but
not by variant 1, and the strategy label `auto-merge-method:merge` is
recognized by variant 2 only. -/
theorem c9_counterexample_variants_differ :
    V2.isPrTagged labelOnlyPr V2.AutoMergeLabel V2.AutoMergeTag = true
    ∧ V1.isPrTagged labelOnlyPr V1.AutoMergeTag = false
    ∧ V1.mergeMethod mergeLabelPr = Except.ok "merge_commit"
    ∧ V2.mergeMethod mergeLabelPr = Except.ok "merge" := ⟨rfl, rfl, rfl, rfl⟩

/-- C9 (amended): variant 2's `isPrTagged` is variant 1's disjoined
with an exact label-membership check, so the two agree wherever that
check fails; `isPrAutoMergeEnabled` of the variants agree on snapshots
carrying neither marker label; and the two `mergeMethod` functions
agree whenever the first strategy label's lower-cased suffix lies
outside the suffixes recognized by exactly one variant
(merge-commit, fast-forward, merge, rebase). -/
theorem c9_variant_agreement (pr : PullRequest) (label tag : String) :
    (V2.isPrTagged pr label tag = (checkLabels pr label || V1.isPrTagged pr tag))
    ∧ (checkLabels pr V2.AutoMergeLabel = false →
        checkLabels pr V2.AutoMergeCheckSuccessLabel = false →
        V2.isPrAutoMergeEnabled pr = V1.isPrAutoMergeEnabled pr)
    ∧ ((∀ lbl, (pr.labels.getD []).find?
          (fun l => strStartsWith l.name V2.AutoMergeMethodLabel) = some lbl →
          (["merge-commit", "fast-forward", "merge", "rebase"].contains
            (strToLower ((strSplitColon lbl.name).getD 1 ""))) = false) →
        V1.mergeMethod pr = V2.mergeMethod pr) := by
  have e1 : ∀ l t, V2.isPrTagged pr l t = (checkLabels pr l || V1.isPrTagged pr t) := by
    intro l t
    simp only [V2.isPrTagged, V1.isPrTagged, Bool.or_assoc]
  have hVlab : V2.AutoMergeMethodLabel = V1.AutoMergeMethodLabel := rfl
  refine ⟨e1 label tag, fun h1 h2 => ?_, fun h => ?_⟩
  · unfold V2.isPrAutoMergeEnabled V1.isPrAutoMergeEnabled
    rw [e1, e1, h1, h2]
    rfl
  · cases hl : pr.labels with
    | none => simp [V1.mergeMethod, V2.mergeMethod, hl]
    | some ls =>
      simp only [V1.mergeMethod, V2.mergeMethod, hVlab, hl]
      cases hf : ls.find? (fun l => strStartsWith l.name V1.AutoMergeMethodLabel) with
      | none => rfl
      | some lbl =>
        have hm : (["merge-commit", "fast-forward", "merge", "rebase"].contains
            (strToLower ((strSplitColon lbl.name).getD 1 ""))) = false := by
          refine h lbl ?_
          rw [hl]
          exact hf
        simp only [methodFromLabel]
        cases hc : strContains lbl.name ":" with
        | false => simp [hc]
        | true =>
          simp only [hc, if_true]
          set m := strToLower ((strSplitColon lbl.name).getD 1 "") with hmdef
          cases hs : (m == "squash") with
          | true =>
            have hms : m = "squash" := eq_of_beq hs
            rw [hms]
            rfl
          | false =>
            cases h1 : (m == "merge-commit")
            case true => simp [List.contains, List.elem, h1] at hm
            case false =>
            cases h2 : (m == "fast-forward")
            case true => simp [List.contains, List.elem, h1, h2] at hm
            case false =>
            cases h3 : (m == "merge")
            case true => simp [List.contains, List.elem, h1, h2, h3] at hm
            case false =>
            cases h4 : (m == "rebase")
            case true => simp [List.contains, List.elem, h1, h2, h3, h4] at hm
            case false =>
            simp [V1.AutoMergeMethods, V2.AutoMergeMethods,
              List.contains, List.elem, h1, h2, h3, h4, hs]

/-- C9 witness: the agreement applied to the snapshot with every field
absent. -/
theorem c9_witness :
    V2.isPrTagged noLabelsPr "a" "b"
      = (checkLabels noLabelsPr "a" || V1.isPrTagged noLabelsPr "b")
    ∧ V2.isPrAutoMergeEnabled noLabelsPr = V1.isPrAutoMergeEnabled noLabelsPr
    ∧ V1.mergeMethod noLabelsPr = V2.mergeMethod noLabelsPr :=
  ⟨(c9_variant_agreement noLabelsPr "a" "b").1,
   (c9_variant_agreement noLabelsPr "a" "b").2.1 rfl rfl,
   (c9_variant_agreement noLabelsPr "a" "b").2.2 (fun lbl hf => Option.noConfusion hf)⟩

/-- The tail of `mergeMethod` never fails: every branch after the
labels dereference yields some strategy. -/
theorem methodFromLabel_ok (methods : List String) (o : Option Label) :
    ∃ s, methodFromLabel methods o = Except.ok s := by
  cases o with
  | none => exact ⟨"merge_commit", rfl⟩
  | some lbl =>
    simp only [methodFromLabel]
    cases hc : strContains lbl.name ":" with
    | false => exact ⟨"merge_commit", by simp [hc]⟩
    | true =>
      cases hcon : methods.contains (strToLower ((strSplitColon lbl.name).getD 1 "")) with
      | true =>
        refine ⟨strToLower ((strSplitColon lbl.name).getD 1 ""), ?_⟩
        simp [hc, hcon]
      | false => exact ⟨"merge_commit", by simp [hc, hcon]⟩

/-- C10: `mergeMethod` dereferences `pr.labels` without a guard: on a
snapshot with the labels field absent both variants raise the
`TypeError` instead of falling back to the default strategy, while with
labels present they always return some strategy — unlike `isTagged`,
which treats an absent text field as non-matching. -/
theorem c10_mergeMethod_labels_guard (pr : PullRequest) :
    (pr.labels = none →
      V1.mergeMethod pr = Except.error labelsUndefinedError
      ∧ V2.mergeMethod pr = Except.error labelsUndefinedError)
    ∧ (∀ ls, pr.labels = some ls →
      (∃ s, V1.mergeMethod pr = Except.ok s) ∧ (∃ s, V2.mergeMethod pr = Except.ok s))
    ∧ (∀ tag, isTagged none tag = false) := by
  refine ⟨fun h => ?_, fun ls hl => ?_, fun tag => rfl⟩
  · constructor
    · simp [V1.mergeMethod, h]
    · simp [V2.mergeMethod, h]
  · constructor
    · simp only [V1.mergeMethod, hl]
      exact methodFromLabel_ok _ _
    · simp only [V2.mergeMethod, hl]
      exact methodFromLabel_ok _ _

/-- C10 witness: the guard at concrete snapshots with the labels field
absent and present. -/
theorem c10_witness :
    (V1.mergeMethod noLabelsPr = Except.error labelsUndefinedError
      ∧ V2.mergeMethod noLabelsPr = Except.error labelsUndefinedError)
    ∧ ((∃ s, V1.mergeMethod emptyLabelsPr = Except.ok s)
      ∧ (∃ s, V2.mergeMethod emptyLabelsPr = Except.ok s))
    ∧ isTagged none "[auto-merge:on-approve]" = false :=
  ⟨(c10_mergeMethod_labels_guard noLabelsPr).1 rfl,
   (c10_mergeMethod_labels_guard emptyLabelsPr).2.1 [] rfl,
   (c10_mergeMethod_labels_guard emptyLabelsPr).2.2 "[auto-merge:on-approve]"⟩
